import Mathlib

/-
Verification development for the carolina-api plugin host kernel.
Shallow embedding of the core components: the event-subscription mapper
(src/framework/util.rs, EventMapper), the one-shot completion barrier
(src/framework/util.rs, Completed), the plugin registry and cross-plugin
call dispatch (src/framework/context.rs, GlobalContextImpl), the per-plugin
API router (src/call.rs, APIRouter), and the connection message pump
(src/framework/context.rs, register_connect / handle_msg).

Machine integers (u64 runtime ids, endpoints) are modelled as Nat: the code
never performs arithmetic on them, only equality and hashing.  Rust HashMap
and DashMap instances are modelled as association lists with HashMap
insert / remove / get semantics.  Opaque payloads (the Value type of the
wire interface) are modelled as Nat, since the router and registry never
inspect them.  Plugin instances, whose hooks are arbitrary foreign code,
are modelled as records of result-returning functions.
-/

namespace Carolina

/-- Association list lookup, the model of HashMap::get. -/
def alGet {κ ν : Type} [BEq κ] : List (κ × ν) → κ → Option ν
  | [], _ => none
  | (k, v) :: rest, key => if k == key then some v else alGet rest key

/-- Association list insert, the model of HashMap::insert: replaces the
binding if the key is present, otherwise appends a fresh binding. -/
def alInsert {κ ν : Type} [BEq κ] : List (κ × ν) → κ → ν → List (κ × ν)
  | [], key, v => [(key, v)]
  | (k, w) :: rest, key, v =>
    if k == key then (key, v) :: rest else (k, w) :: alInsert rest key v

/-- Association list erase, the model of HashMap::remove: the key is gone
from the map afterwards. -/
def alErase {κ ν : Type} [BEq κ] (l : List (κ × ν)) (key : κ) : List (κ × ν) :=
  l.filter (fun p => !(p.1 == key))

/-- Association list key membership, the model of HashMap::contains_key. -/
def alContains {κ ν : Type} [BEq κ] (l : List (κ × ν)) (key : κ) : Bool :=
  (alGet l key).isSome

/-- After erasing a key, looking it up yields none. -/
theorem alGet_alErase {κ ν : Type} [BEq κ] (l : List (κ × ν)) (key : κ) :
    alGet (alErase l key) key = none := by
  induction l with
  | nil => rfl
  | cons hd tl ih =>
    by_cases h : (hd.1 == key) = true
    · simp [alErase, List.filter, h] at ih ⊢
      exact ih
    · simp only [Bool.not_eq_true] at h
      simp [alErase, List.filter, h] at ih ⊢
      simp [alGet, h]
      exact ih

/-- Insert-then-erase of the same key leaves no binding for it. -/
theorem alGet_alErase_alInsert {κ ν : Type} [BEq κ]
    (l : List (κ × ν)) (key : κ) (v : ν) :
    alGet (alErase (alInsert l key v) key) key = none :=
  alGet_alErase _ key

/-- Plugin runtime id (u64 in the source, `PluginRid`). -/
abbrev PluginRid := Nat

/-- Application runtime id (u64 in the source, `AppRid`). -/
abbrev AppRid := Nat

/-- API endpoint id (u64 in the source, `Endpoint`). -/
abbrev Endpoint := Nat

/-- Opaque API payload (the external `Value` type); never inspected by
the router or the registry, so its representation is irrelevant. -/
abbrev Value := Nat

/-- Waker handle registered with the completion barrier; its identity is
all the model needs. -/
abbrev Waker := Nat

/-- Subscription priority, from src/common/mod.rs. -/
inductive Priority where
  | Lowest
  | Low
  | Medium
  | High
  | Highest
deriving DecidableEq, Repr

/-- Event subscription declared by a plugin, from src/common/mod.rs:
event type, optional detail type (absent = wildcard), priority. -/
structure Subscribe where
  event_type : String
  detail_type : Option String
  priority : Priority
deriving DecidableEq, Repr

/-- The only data EventMapper::subscribe accepts is the (type, detail)
pair: its signature is `Vec<(String, Option<String>)>`, so the priority
field of a Subscribe never reaches the mapper. -/
def Subscribe.toPair (s : Subscribe) : String × Option String :=
  (s.event_type, s.detail_type)

/-- Typed API error, from src/common/call.rs.  The source enum has
exactly these three constructors. -/
inductive APIError where
  | PluginNotFound (rid : PluginRid)
  | EndpointNotFound (ep : Endpoint)
  | Error (msg : String)
deriving DecidableEq, Repr

/-- APIError::other wraps any display message in the generic string
variant, from src/common/call.rs. -/
def APIError.other (msg : String) : APIError :=
  APIError.Error msg

/-- Cross-plugin API call, from src/common/call.rs. -/
structure APICall where
  endpoint : Endpoint
  payload : Value
deriving DecidableEq, Repr

/-- Result type of an API call. -/
abbrev APIResult := Except APIError Value

/-- Two-level subscription index, from src/framework/util.rs: event type
to detail type to list of subscriber rids, plus the reverse index. -/
structure EventMapper where
  type2uid : List (String × List (String × List PluginRid))
  uid2type : List (PluginRid × List (String × Option String))
deriving Repr

/-- The empty mapper (Default in the source). -/
def EventMapper.empty : EventMapper :=
  ⟨[], []⟩

/-- One entry-or-default-and-push step of EventMapper::subscribe: the
bucket keyed by the detail string gets the rid appended. -/
def bucketsPush (buckets : List (String × List PluginRid)) (d : String)
    (rid : PluginRid) : List (String × List PluginRid) :=
  alInsert buckets d (((alGet buckets d).getD []) ++ [rid])

/-- Record one (type, detail) subscription for a rid: the inner bucket is
keyed by the detail string, with `detail.unwrap_or_default()` mapping an
absent detail to the reserved wildcard key, the empty string. -/
def EventMapper.subscribeOne (m : EventMapper) (ty : String)
    (dty : Option String) (rid : PluginRid) : EventMapper :=
  { m with
    type2uid :=
      alInsert m.type2uid ty
        (bucketsPush ((alGet m.type2uid ty).getD []) (dty.getD "") rid) }

/-- EventMapper::subscribe from src/framework/util.rs: push the rid into
every bucket named by the subscription list, then record the reverse
index entry.  Note the argument type: only (type, detail) pairs, no
priority. -/
def EventMapper.subscribe (m : EventMapper)
    (types : List (String × Option String)) (rid : PluginRid) : EventMapper :=
  let m2 := types.foldl (fun acc p => acc.subscribeOne p.1 p.2 rid) m
  { m2 with uid2type := alInsert m2.uid2type rid types }

/-- EventMapper::filter_plugins from src/framework/util.rs: the bucket of
the exact detail string, followed by the bucket of the wildcard key, in
the order the rids were pushed. -/
def EventMapper.filter_plugins (m : EventMapper) (ty dty : String) :
    List PluginRid :=
  match alGet m.type2uid ty with
  | none => []
  | some buckets => ((alGet buckets dty).getD []) ++ ((alGet buckets "").getD [])

/-- One-shot completion barrier, from src/framework/util.rs (Completed):
an AtomicBool state plus the list of registered wakers. -/
structure Completed where
  state : Bool
  wakers : List Waker
deriving DecidableEq, Repr

/-- Completed::complete: store true, take the waker list (each taken
waker is woken exactly once; the barrier keeps none of them). -/
def Completed.complete (_c : Completed) : Completed :=
  { state := true, wakers := [] }

/-- The wakers woken by one Completed::complete call: exactly the list
taken from the barrier. -/
def Completed.completeWoken (c : Completed) : List Waker :=
  c.wakers

/-- Completed::is_completed: load the state flag. -/
def Completed.is_completed (c : Completed) : Bool :=
  c.state

/-- One poll of the Completed future: if the state flag is set the future
resolves (true); otherwise the waker is registered and the poll is
pending (false). -/
def Completed.poll (c : Completed) (w : Waker) : Completed × Bool :=
  if c.state then (c, true) else ({ c with wakers := c.wakers ++ [w] }, false)

/-- The operations any task can apply to the barrier. -/
inductive BarrierOp where
  | complete
  | poll (w : Waker)
deriving DecidableEq, Repr

/-- Apply one barrier operation to the barrier state. -/
def applyBarrierOp (c : Completed) : BarrierOp → Completed
  | .complete => c.complete
  | .poll w => (c.poll w).1

/-- Plugin metadata, from src/common/plugin.rs (PluginInfo). -/
structure PluginInfo where
  id : String
  name : String
  version : String
  author : String
  description : String
deriving DecidableEq, Repr

/-- Outcome a plugin reports for one handled event, from
src/common/mod.rs (EventState). -/
inductive EventState where
  | pass
  | intercept
deriving DecidableEq, Repr

/-- The two fields of an inbound event the router consults:
event.event.r#type and event.event.detail_type. -/
structure EventData where
  ty : String
  detailTy : String
deriving DecidableEq, Repr

/-- A plugin instance as the registry sees it: the results of its hooks.
The hooks run foreign plugin code, so they are modelled as opaque
result-returning functions; the contexts handed to init, post_init and
handle_event carry only capabilities back into the host and do not
influence the registry state transitions proved here. -/
structure PluginModel where
  initRes : Except String Unit
  subs : List Subscribe
  handleEvent : EventData → Except String EventState
  handleApiCall : PluginRid → APICall → APIResult

/-- The registry state, from src/framework/context.rs
(GlobalContextInner): the rid-to-instance table (with the is_runtime
flag), the stable-id-to-rid map, the rid-to-info map, the subscription
mapper, the shared app table (app handles opaque), and the completion
barrier. -/
structure RegState where
  ridMap : List (PluginRid × (Bool × PluginModel))
  id2rid : List (String × PluginRid)
  rid2info : List (PluginRid × PluginInfo)
  mapper : EventMapper
  sharedApps : List (AppRid × Nat)
  running : Completed

/-- A freshly constructed registry: every table empty, barrier not yet
released (GlobalContextImpl::new). -/
def RegState.empty : RegState :=
  ⟨[], [], [], EventMapper.empty, [], ⟨false, []⟩⟩

/-- GlobalContextImpl::init_plugin from src/framework/context.rs.  The
rid is generated by random collision-retry against the rid table in the
source; here it is passed in, and freshness is a hypothesis where a
theorem needs it.  Directory creation is modelled as succeeding (a
directory failure returns before the init hook runs and is outside every
claim).  On init failure the id2rid and rid2info insertions are removed
again and the error is returned; on success the subscriptions are
recorded (only their (type, detail) pairs reach the mapper) and the
instance takes its slot in the rid table. -/
def init_plugin (st : RegState) (plugin : PluginModel) (info : PluginInfo)
    (isRt : Bool) (rid : PluginRid) : RegState × Except String PluginRid :=
  let id := info.id
  let st1 := { st with
    id2rid := alInsert st.id2rid id rid
    rid2info := alInsert st.rid2info rid info }
  match plugin.initRes with
  | .error e =>
    ({ st1 with
        id2rid := alErase st1.id2rid id
        rid2info := alErase st1.rid2info rid },
     .error e)
  | .ok _ =>
    ({ st1 with
        mapper := st1.mapper.subscribe (plugin.subs.map Subscribe.toPair) rid
        ridMap := alInsert st1.ridMap rid (isRt, plugin) },
     .ok rid)

/-- The final action of GlobalContextImpl::post_init: release the
completion barrier (the per-plugin post_init hooks mutate only plugin
state and the error sink). -/
def completeReg (st : RegState) : RegState :=
  { st with running := st.running.complete }

/-- GlobalContext::get_plugin_rid: resolve a stable plugin id to its
runtime id via the plugin_id2rid map. -/
def get_plugin_rid (st : RegState) (id : String) : Option PluginRid :=
  alGet st.id2rid id

/-- GlobalContext::get_plugin_id: resolve a runtime id to the stable id
via the plugin_rid2info map. -/
def get_plugin_id (st : RegState) (rid : PluginRid) : Option String :=
  (alGet st.rid2info rid).map (fun i => i.id)

/-- GlobalContext::call_plugin_api from src/framework/context.rs:
bootstrap guard first (self-call while the barrier is not released is
rejected with the generic string error built by APIError::other), then
rid-table lookup: missing target yields PluginNotFound, a present target
has its handle_api_call invoked with the caller rid and the result is
returned unchanged. -/
def call_plugin_api (st : RegState) (src target : PluginRid)
    (call : APICall) : APIResult :=
  if !st.running.is_completed && src == target then
    Except.error (APIError.other "initialization hasn\x27t finish, cannot call self")
  else
    match alGet st.ridMap target with
    | some p => p.2.handleApiCall src call
    | none => Except.error (APIError.PluginNotFound target)

/-- The drained registry bundle, from src/framework/context.rs
(GlobalDestructed). -/
structure GlobalDestructed where
  plugins : List (PluginRid × (PluginInfo × PluginModel))
  sharedApps : List (AppRid × Nat)

/-- The per-rid loop of destruct: remove the rid from plugin_rid2info
(skipping the rid with only a logged error when no info is found, in
which case the rid table entry is not removed either) and move the
instance out of the rid table into the bundle.  The unwrap on the rid
table cannot fail for the key list destruct feeds in; the impossible
branch is modelled as a skip. -/
def destructLoop :
    List PluginRid → List (PluginRid × (Bool × PluginModel)) →
    List (PluginRid × PluginInfo) →
    List (PluginRid × (PluginInfo × PluginModel)) →
    List (PluginRid × (Bool × PluginModel)) × List (PluginRid × PluginInfo) ×
      List (PluginRid × (PluginInfo × PluginModel))
  | [], ridMap, rid2info, acc => (ridMap, rid2info, acc)
  | rid :: rest, ridMap, rid2info, acc =>
    match alGet rid2info rid with
    | none => destructLoop rest ridMap rid2info acc
    | some info =>
      match alGet ridMap rid with
      | some bp =>
        destructLoop rest (alErase ridMap rid) (alErase rid2info rid)
          (acc ++ [(rid, (info, bp.2))])
      | none =>
        destructLoop rest (alErase ridMap rid) (alErase rid2info rid) acc

/-- GlobalContextImpl::destruct from src/framework/context.rs: snapshot
the rid-table keys, drain plugin_rid2info and plugin_rid_map through the
loop, then drain shared_apps.  plugin_id2rid, the mapper and the barrier
are left untouched. -/
def destruct (st : RegState) : RegState × GlobalDestructed :=
  let keys := st.ridMap.map Prod.fst
  let r := destructLoop keys st.ridMap st.rid2info []
  ({ st with ridMap := r.1, rid2info := r.2.1, sharedApps := [] },
   { plugins := r.2.2, sharedApps := st.sharedApps })

/-- A message pulled from a connection source, from the external
RecvMessage type: an inbound event or a close notice (the close payload
is only ever displayed, so a string stands for it). -/
inductive RecvMessage where
  | event (e : EventData)
  | close (info : String)
deriving DecidableEq, Repr

/-- The log lines the pump can emit; each constructor matches one
log::error or log::info call site in handle_msg. -/
inductive LogEntry where
  | providerErr (owner : PluginRid) (msg : String)
  | pluginMissing (rid : PluginRid)
  | handleErr (rid : PluginRid) (msg : String)
  | connClosed (info : String)
deriving DecidableEq, Repr

/-- The per-event dispatch loop inside handle_msg
(src/framework/context.rs): for each resolved rid, a missing rid-table
entry is logged and skipped; otherwise handle_event is invoked and an
error result is logged; the loop never stops early.  The returned trace
lists, in order, every handle_event invocation with its result. -/
def dispatchLoop (st : RegState) (e : EventData) :
    List PluginRid → List LogEntry × List (PluginRid × Except String EventState)
  | [] => ([], [])
  | rid :: rest =>
    match alGet st.ridMap rid with
    | none =>
      let r := dispatchLoop st e rest
      (LogEntry.pluginMissing rid :: r.1, r.2)
    | some bp =>
      match bp.2.handleEvent e with
      | .error msg =>
        let r := dispatchLoop st e rest
        (LogEntry.handleErr rid msg :: r.1, (rid, Except.error msg) :: r.2)
      | .ok s =>
        let r := dispatchLoop st e rest
        (r.1, (rid, Except.ok s) :: r.2)

/-- handle_msg from src/framework/context.rs: an event message derives
the app view from the provider (a provider error is logged and the event
skipped), resolves the interested plugins through the mapper and runs
the dispatch loop; a close message is only logged.  The app view itself
is opaque to dispatch, so the provider is a result-returning function. -/
def handleMsg (owner : PluginRid) (st : RegState)
    (provider : EventData → Except String Nat) (msg : RecvMessage) :
    List LogEntry × List (PluginRid × Except String EventState) :=
  match msg with
  | .close info => ([LogEntry.connClosed info], [])
  | .event e =>
    match provider e with
    | .error msg => ([LogEntry.providerErr owner msg], [])
    | .ok _ =>
      dispatchLoop st e (st.mapper.filter_plugins e.ty e.detailTy)

/-- The pump loop of register_connect: while the source yields a
message, handle it; the source is modelled as the list of messages it
will yield.  Nothing in the loop body breaks out of the loop. -/
def pumpRun (owner : PluginRid) (st : RegState)
    (provider : EventData → Except String Nat) :
    List RecvMessage →
    List (List LogEntry × List (PluginRid × Except String EventState))
  | [] => []
  | m :: rest => handleMsg owner st provider m :: pumpRun owner st provider rest

/-- API call handler as the router sees it, from src/call.rs
(APICallHandler): its declared endpoint and its handle function (payload
opaque). -/
structure APICallHandler where
  endpoint : Endpoint
  handle : PluginRid → Value → APIResult

/-- The handler table of one APIRouter. -/
abbrev HandlerMap := List (Endpoint × APICallHandler)

/-- Registration conflict error, from src/call.rs (RegError). -/
inductive RegError where
  | Conflicted (ep : Endpoint)
deriving DecidableEq, Repr

/-- Program counter of APIRouter::register from src/call.rs, one point
per statement that touches the RwLock:
lock1 is the first `self.handlers.write().await`;
check is the `contains_key` test run while that first guard is held;
lock2 is the second `self.handlers.write().await` of the fresh-endpoint
branch, awaited while the first guard is still alive;
insertStep is the insert through the second guard;
doneOk and doneErr are the two return points, with every guard
dropped. -/
inductive RegPc where
  | lock1
  | check
  | lock2
  | insertStep
  | doneOk
  | doneErr
deriving DecidableEq, Repr

/-- State of the register call: program counter, number of write guards
currently held on the RwLock of the router, and the handler table. -/
structure RegMachine where
  pc : RegPc
  writers : Nat
  handlers : HandlerMap

/-- Initial state of one register call: about to acquire, lock free. -/
def regInit (hs : HandlerMap) : RegMachine :=
  ⟨RegPc.lock1, 0, hs⟩

/-- One step of APIRouter::register.  An exclusive write acquisition on
the tokio RwLock can proceed only while no guard is held; a step from a
state whose acquisition cannot proceed yields none, and because register
is the only task touching this lock and the blocking guard is owned by
this same suspended call, a blocked acquisition stays blocked: no other
step ever releases it. -/
def regStep (h : APICallHandler) (s : RegMachine) : Option RegMachine :=
  match s.pc with
  | .lock1 =>
    if s.writers == 0 then
      some { s with pc := RegPc.check, writers := s.writers + 1 }
    else none
  | .check =>
    if alContains s.handlers h.endpoint then
      some { s with pc := RegPc.doneErr, writers := s.writers - 1 }
    else
      some { s with pc := RegPc.lock2 }
  | .lock2 =>
    if s.writers == 0 then
      some { s with pc := RegPc.insertStep, writers := s.writers + 1 }
    else none
  | .insertStep =>
    some { s with
      pc := RegPc.doneOk
      writers := 0
      handlers := alInsert s.handlers h.endpoint h }
  | .doneOk => none
  | .doneErr => none

/-- Read the result of a finished register call: the conflict branch
returns Err(Conflicted(endpoint)) and the fresh branch returns Ok, each
with the table the call leaves behind. -/
def regDone (h : APICallHandler) (s : RegMachine) :
    Option (Except RegError Unit × HandlerMap) :=
  match s.pc with
  | .doneOk => some (Except.ok (), s.handlers)
  | .doneErr => some (Except.error (RegError.Conflicted h.endpoint), s.handlers)
  | _ => none

/-- Run the register machine for a bounded number of steps; none means
the call has not produced a result, in particular whenever it is blocked
on an acquisition no step can ever satisfy. -/
def regRun (h : APICallHandler) : Nat → RegMachine →
    Option (Except RegError Unit × HandlerMap)
  | 0, s => regDone h s
  | n + 1, s =>
    match regDone h s with
    | some r => some r
    | none =>
      match regStep h s with
      | some s2 => regRun h n s2
      | none => none

/-- APIRouter::handle from src/call.rs: look up the endpoint; a missing
endpoint yields EndpointNotFound, a present handler is invoked with the
caller rid and the payload, and its result is returned unchanged. -/
def routerHandle (hs : HandlerMap) (src : PluginRid) (call : APICall) :
    APIResult :=
  match alGet hs call.endpoint with
  | some h => h.handle src call.payload
  | none => Except.error (APIError.EndpointNotFound call.endpoint)

/-- APIRouter::is_registered from src/call.rs. -/
def routerIsRegistered (hs : HandlerMap) (ep : Endpoint) : Bool :=
  alContains hs ep

/-- Mapper state after plugin 2 subscribes to (A, x) with Low priority
and then plugin 1 subscribes to (A, x) with High priority; the priority
fields are dropped by Subscribe.toPair exactly as the mapper interface
drops them. -/
def c1Mapper : EventMapper :=
  (EventMapper.empty.subscribe
      ([Subscribe.mk "A" (some "x") Priority.Low].map Subscribe.toPair) 2).subscribe
    ([Subscribe.mk "A" (some "x") Priority.High].map Subscribe.toPair) 1

/-- C1: evaluation at the failing input.  With P1 = rid 1 subscribed to
(A, x) at High priority and P2 = rid 2 subscribed at Low priority but
earlier, filter_plugins returns [2, 1] - pure subscription order - and
not the [1, 2] the priority-ordering contract requires.  The priority
never reaches the mapper: EventMapper::subscribe accepts only
(type, detail) pairs. -/
theorem c1_priority_eval :
    EventMapper.filter_plugins c1Mapper "A" "x" = [2, 1] ∧
    EventMapper.filter_plugins c1Mapper "A" "x" ≠ [1, 2] := by
  refine ⟨rfl, ?_⟩
  intro h
  rw [show EventMapper.filter_plugins c1Mapper "A" "x" = [2, 1] from rfl] at h
  simp at h

/-- Plugin instance used for the destruct evaluation. -/
def c3Plugin : PluginModel :=
  ⟨Except.ok (), [], fun _ => Except.ok EventState.pass, fun _ _ => Except.ok 0⟩

/-- Info record of the destruct evaluation plugin. -/
def c3Info : PluginInfo :=
  ⟨"p", "p", "0.1.0", "a", "d"⟩

/-- Registry holding exactly one successfully registered plugin with
stable id p and runtime id 7. -/
def c3Registered : RegState :=
  (init_plugin RegState.empty c3Plugin c3Info false 7).1

/-- C3: evaluation at the failing input.  After destruct, resolving the
stable id p via get_plugin_rid still yields runtime id 7 - destruct
drains plugin_rid_map and plugin_rid2info but never plugin_id2rid - so
the claim that such lookups return none fails; the reverse lookup and
the returned bundle behave as claimed: get_plugin_id is none and the
bundle holds exactly the registered rid. -/
theorem c3_destruct_eval :
    get_plugin_rid c3Registered "p" = some 7 ∧
    get_plugin_rid (destruct c3Registered).1 "p" = some 7 ∧
    get_plugin_id (destruct c3Registered).1 7 = none ∧
    (destruct c3Registered).2.plugins.map Prod.fst = [7] :=
  ⟨rfl, rfl, rfl, rfl⟩

/-- C8: the completion barrier is monotonic and one-shot.  Under any
single operation, and any sequence of operations, a released barrier
stays released; a second complete is a no-op that wakes no waker; and a
poll after complete resolves immediately without registering a waker or
changing the barrier. -/
theorem c8_barrier :
    (∀ (c : Completed) (op : BarrierOp),
        c.state = true → (applyBarrierOp c op).state = true) ∧
    (∀ (c : Completed) (ops : List BarrierOp),
        c.state = true → (ops.foldl applyBarrierOp c).state = true) ∧
    (∀ c : Completed,
        applyBarrierOp (applyBarrierOp c BarrierOp.complete) BarrierOp.complete =
          applyBarrierOp c BarrierOp.complete ∧
        (applyBarrierOp c BarrierOp.complete).completeWoken = []) ∧
    (∀ (c : Completed) (w : Waker),
        (applyBarrierOp c BarrierOp.complete).poll w =
          (applyBarrierOp c BarrierOp.complete, true)) := by
  have hmono : ∀ (c : Completed) (op : BarrierOp),
      c.state = true → (applyBarrierOp c op).state = true := by
    intro c op h
    cases op with
    | complete => rfl
    | poll w => simp [applyBarrierOp, Completed.poll, h]
  refine ⟨hmono, ?_, ?_, ?_⟩
  · intro c ops h
    induction ops generalizing c with
    | nil => exact h
    | cons o rest ih => exact ih _ (hmono c o h)
  · intro c
    exact ⟨rfl, rfl⟩
  · intro c w
    rfl

/-- Witness for c8_barrier: concrete released barrier, concrete
operation, hypothesis discharged by rfl. -/
theorem c8_barrier_witness :
    (⟨true, []⟩ : Completed).state = true ∧
    (applyBarrierOp ⟨true, []⟩ BarrierOp.complete).state = true :=
  ⟨rfl, c8_barrier.1 ⟨true, []⟩ BarrierOp.complete rfl⟩

/-- From the blocked second acquisition no run of any length produces a
result: the same suspended call owns the guard that blocks it. -/
theorem regRun_blocked (h : APICallHandler) (hs : HandlerMap) (fuel : Nat) :
    regRun h fuel ⟨RegPc.lock2, 1, hs⟩ = none := by
  cases fuel with
  | zero => rfl
  | succ n => rfl

/-- C4: registering a handler at an endpoint not yet present never
completes.  The fresh-endpoint branch of APIRouter::register in
src/call.rs awaits a second write acquisition of the same RwLock while
the first write guard is still held, so the run blocks for every step
budget and no result - in particular no successful insertion - is ever
produced. -/
theorem c4_register_deadlock (hs : HandlerMap) (h : APICallHandler) (fuel : Nat)
    (hfresh : alContains hs h.endpoint = false) :
    regRun h fuel (regInit hs) = none := by
  cases fuel with
  | zero => rfl
  | succ n =>
    cases n with
    | zero =>
      simp [regRun, regInit, regDone, regStep, hfresh]
    | succ m =>
      have htwo : regRun h (m + 2) (regInit hs) =
          regRun h m ⟨RegPc.lock2, 1, hs⟩ := by
        simp [regRun, regInit, regDone, regStep, hfresh]
      rw [htwo, regRun_blocked]

/-- Handler used by the deadlock witness. -/
def c4Handler : APICallHandler :=
  ⟨7, fun _ v => Except.ok v⟩

/-- Witness for c4_register_deadlock: empty table, endpoint 7 fresh,
nine steps of budget, still no result. -/
theorem c4_register_deadlock_witness :
    alContains ([] : HandlerMap) c4Handler.endpoint = false ∧
    regRun c4Handler 9 (regInit []) = none :=
  ⟨rfl, c4_register_deadlock [] c4Handler 9 rfl⟩

/-- C6: registering a second handler on an occupied endpoint returns the
Conflicted error naming that endpoint, leaves the table unchanged, and a
subsequent handle call on that endpoint still invokes the first
handler. -/
theorem c6_conflict_keeps_handler (hs : HandlerMap) (h1 h2 : APICallHandler)
    (ep : Endpoint) (src : PluginRid) (v : Value) (fuel : Nat)
    (hget : alGet hs ep = some h1) (hep : h2.endpoint = ep) :
    regRun h2 (fuel + 2) (regInit hs) =
      some (Except.error (RegError.Conflicted ep), hs) ∧
    routerHandle hs src ⟨ep, v⟩ = h1.handle src v := by
  have hcont : alContains hs h2.endpoint = true := by
    simp [alContains, hep, hget]
  constructor
  · have htwo : regRun h2 (fuel + 2) (regInit hs) =
        regRun h2 fuel ⟨RegPc.doneErr, 0, hs⟩ := by
      simp [regRun, regInit, regDone, regStep, hcont]
    rw [htwo]
    cases fuel with
    | zero => simp [regRun, regDone, hep]
    | succ n => simp [regRun, regDone, hep]
  · simp [routerHandle, hget]

/-- First handler of the conflict witness, registered at endpoint 5. -/
def c6H1 : APICallHandler :=
  ⟨5, fun _ _ => Except.ok 1⟩

/-- Second handler of the conflict witness, declaring the same
endpoint 5. -/
def c6H2 : APICallHandler :=
  ⟨5, fun _ _ => Except.ok 2⟩

/-- Table of the conflict witness: endpoint 5 occupied by the first
handler. -/
def c6Map : HandlerMap :=
  [(5, c6H1)]

/-- Witness for c6_conflict_keeps_handler at concrete handlers. -/
theorem c6_conflict_keeps_handler_witness :
    alGet c6Map 5 = some c6H1 ∧ c6H2.endpoint = 5 ∧
    regRun c6H2 2 (regInit c6Map) =
      some (Except.error (RegError.Conflicted 5), c6Map) ∧
    routerHandle c6Map 3 ⟨5, 0⟩ = c6H1.handle 3 0 :=
  ⟨rfl, rfl, (c6_conflict_keeps_handler c6Map c6H1 c6H2 5 3 0 0 rfl rfl).1,
    (c6_conflict_keeps_handler c6Map c6H1 c6H2 5 3 0 0 rfl rfl).2⟩

/-- C7: when the init hook fails, init_plugin rolls the two id maps
back - looking up the stable id and the runtime id afterwards yields
none - the plugin takes no slot in the rid table, no subscription is
recorded, and the init error is returned to the caller. -/
theorem c7_init_rollback (st : RegState) (plugin : PluginModel)
    (info : PluginInfo) (isRt : Bool) (rid : PluginRid) (e : String)
    (hfail : plugin.initRes = Except.error e) :
    alGet (init_plugin st plugin info isRt rid).1.id2rid info.id = none ∧
    alGet (init_plugin st plugin info isRt rid).1.rid2info rid = none ∧
    (init_plugin st plugin info isRt rid).1.ridMap = st.ridMap ∧
    (init_plugin st plugin info isRt rid).1.mapper = st.mapper ∧
    (init_plugin st plugin info isRt rid).2 = Except.error e := by
  simp [init_plugin, hfail, alGet_alErase]

/-- Plugin whose init hook fails, for the rollback witness. -/
def c7Plugin : PluginModel :=
  ⟨Except.error "boom", [Subscribe.mk "A" none Priority.Medium],
    fun _ => Except.ok EventState.pass, fun _ _ => Except.ok 0⟩

/-- Info record of the rollback witness plugin. -/
def c7Info : PluginInfo :=
  ⟨"q", "q", "0.1.0", "a", "d"⟩

/-- Witness for c7_init_rollback at a concrete failing plugin. -/
theorem c7_init_rollback_witness :
    c7Plugin.initRes = Except.error "boom" ∧
    alGet (init_plugin RegState.empty c7Plugin c7Info false 3).1.id2rid "q" = none ∧
    (init_plugin RegState.empty c7Plugin c7Info false 3).2 =
      Except.error "boom" :=
  ⟨rfl,
    (c7_init_rollback RegState.empty c7Plugin c7Info false 3 "boom" rfl).1,
    (c7_init_rollback RegState.empty c7Plugin c7Info false 3 "boom" rfl).2.2.2.2⟩

/-- C2 counterexample: before the barrier is released, a self-call is
rejected, but the error value is the generic string variant
APIError.Error built by APIError::other - the source APIError enum,
embedded above in full, has only the constructors PluginNotFound,
EndpointNotFound and Error, so no dedicated typed InitializationIncomplete
error exists to be returned; the claim that the failure carries that
typed error is false at this input. -/
theorem c2_counterexample :
    call_plugin_api RegState.empty 1 1 ⟨0, 0⟩ =
      Except.error (APIError.Error "initialization hasn\x27t finish, cannot call self") ∧
    (match call_plugin_api RegState.empty 1 1 ⟨0, 0⟩ with
      | Except.error (APIError.Error _) => true
      | _ => false) = true :=
  ⟨rfl, rfl⟩

/-- C2 as amended: while the barrier is not released, a self-call fails
with the generic string error carrying the bootstrap message; a call
whose source differs from its target is unaffected by the barrier state;
and after complete() a self-call to a registered target is forwarded to
its handle_api_call and the result returned unchanged. -/
theorem c2_guard (st : RegState) (src target : PluginRid) (call : APICall)
    (p : Bool × PluginModel) :
    (st.running.state = false → src = target →
      call_plugin_api st src target call =
        Except.error
          (APIError.Error "initialization hasn\x27t finish, cannot call self")) ∧
    (src ≠ target →
      call_plugin_api st src target call =
        call_plugin_api (completeReg st) src target call) ∧
    (alGet st.ridMap target = some p →
      call_plugin_api (completeReg st) target target call =
        p.2.handleApiCall target call) := by
  refine ⟨?_, ?_, ?_⟩
  · intro h1 h2
    subst h2
    simp [call_plugin_api, Completed.is_completed, h1, APIError.other]
  · intro hne
    have hb : (src == target) = false := by simp [hne]
    simp [call_plugin_api, completeReg, Completed.complete,
      Completed.is_completed, hb]
  · intro hget
    simp [call_plugin_api, completeReg, Completed.complete,
      Completed.is_completed, hget]

/-- Plugin answering every API call with 9, for the guard witness. -/
def c2Plugin : PluginModel :=
  ⟨Except.ok (), [], fun _ => Except.ok EventState.pass,
    fun _ _ => Except.ok 9⟩

/-- Registry with that plugin at rid 1 and the barrier not released. -/
def c2State : RegState :=
  { RegState.empty with ridMap := [(1, (false, c2Plugin))] }

/-- Witness for c2_guard: concrete self-call rejected before complete,
forwarded after complete. -/
theorem c2_guard_witness :
    c2State.running.state = false ∧
    call_plugin_api c2State 1 1 ⟨0, 0⟩ =
      Except.error
        (APIError.Error "initialization hasn\x27t finish, cannot call self") ∧
    call_plugin_api (completeReg c2State) 1 1 ⟨0, 0⟩ = Except.ok 9 := by
  refine ⟨rfl, (c2_guard c2State 1 1 ⟨0, 0⟩ (false, c2Plugin)).1 rfl rfl, ?_⟩
  have h := (c2_guard c2State 1 1 ⟨0, 0⟩ (false, c2Plugin)).2.2 rfl
  rw [h]
  rfl

/-- C10: a cross-plugin call (distinct source and target) to an
unregistered target yields PluginNotFound carrying that target rid; a
call to a registered target, whenever the bootstrap guard does not apply
(barrier released, or distinct source and target), is forwarded to the
target instance with the caller rid and its result is returned
unchanged. -/
theorem c10_call_routing (st : RegState) (src target : PluginRid)
    (call : APICall) (p : Bool × PluginModel) :
    (src ≠ target → alGet st.ridMap target = none →
      call_plugin_api st src target call =
        Except.error (APIError.PluginNotFound target)) ∧
    (alGet st.ridMap target = some p →
      (st.running.state = true ∨ src ≠ target) →
      call_plugin_api st src target call = p.2.handleApiCall src call) := by
  constructor
  · intro hne hnone
    have hb : (src == target) = false := by simp [hne]
    simp [call_plugin_api, hb, hnone]
  · intro hget hguard
    cases hguard with
    | inl hrun => simp [call_plugin_api, Completed.is_completed, hrun, hget]
    | inr hne =>
      have hb : (src == target) = false := by simp [hne]
      simp [call_plugin_api, hb, hget]

/-- Plugin echoing source plus endpoint, for the routing witness. -/
def c10Plugin : PluginModel :=
  ⟨Except.ok (), [], fun _ => Except.ok EventState.pass,
    fun s c => Except.ok (s + c.endpoint)⟩

/-- Registry with that plugin at rid 4, barrier not yet released. -/
def c10State : RegState :=
  { RegState.empty with ridMap := [(4, (true, c10Plugin))] }

/-- Witness for c10_call_routing: unknown target 5 yields PluginNotFound
5; registered target 4 called from 9 returns the handler result. -/
theorem c10_call_routing_witness :
    (9 : PluginRid) ≠ 5 ∧
    alGet c10State.ridMap 5 = none ∧
    call_plugin_api c10State 9 5 ⟨2, 0⟩ =
      Except.error (APIError.PluginNotFound 5) ∧
    alGet c10State.ridMap 4 = some (true, c10Plugin) ∧
    call_plugin_api c10State 9 4 ⟨2, 0⟩ = Except.ok 11 := by
  refine ⟨by decide, rfl,
    (c10_call_routing c10State 9 5 ⟨2, 0⟩ (true, c10Plugin)).1 (by decide) rfl,
    rfl, ?_⟩
  have h := (c10_call_routing c10State 9 4 ⟨2, 0⟩ (true, c10Plugin)).2 rfl
    (Or.inr (by decide))
  rw [h]
  rfl

/-- Plugin subscribed to (A, x), for the pump evaluation. -/
def c5Plugin : PluginModel :=
  ⟨Except.ok (), [Subscribe.mk "A" (some "x") Priority.Medium],
    fun _ => Except.ok EventState.pass, fun _ _ => Except.ok 0⟩

/-- Registry with that plugin at rid 1 and its subscription recorded. -/
def c5State : RegState :=
  { RegState.empty with
    ridMap := [(1, (false, c5Plugin))]
    mapper := EventMapper.empty.subscribe (c5Plugin.subs.map Subscribe.toPair) 1 }

/-- Provider that always produces an app view. -/
def c5Provider : EventData → Except String Nat :=
  fun _ => Except.ok 0

/-- A source that yields a close message and then an event. -/
def c5Msgs : List RecvMessage :=
  [RecvMessage.close "bye", RecvMessage.event ⟨"A", "x"⟩]

/-- C5 counterexample: after the close message is received the pump
pulls the next message and dispatches its event to the subscribed plugin
- the close is only logged and nothing is released - so the claim that a
close message terminates the loop and no further messages are pulled is
false at this source. -/
theorem c5_counterexample :
    pumpRun 0 c5State c5Provider c5Msgs =
      [([LogEntry.connClosed "bye"], []),
       ([], [(1, Except.ok EventState.pass)])] :=
  rfl

/-- C5 as amended: receiving a close message does not terminate the
pump; the close is only logged (no dispatch, nothing released) and every
remaining message of the source is still pulled and handled; the loop
ends exactly when the source is exhausted. -/
theorem c5_close_behavior (owner : PluginRid) (st : RegState)
    (provider : EventData → Except String Nat) (i : String)
    (rest : List RecvMessage) :
    handleMsg owner st provider (RecvMessage.close i) =
      ([LogEntry.connClosed i], []) ∧
    pumpRun owner st provider (RecvMessage.close i :: rest) =
      ([LogEntry.connClosed i], []) :: pumpRun owner st provider rest ∧
    ∀ msgs : List RecvMessage,
      (pumpRun owner st provider msgs).length = msgs.length := by
  refine ⟨rfl, rfl, ?_⟩
  intro msgs
  induction msgs with
  | nil => rfl
  | cons m r ih => simp [pumpRun, ih]

/-- C9: the dispatch loop invokes handle_event for every resolved plugin
present in the rid table, in order, regardless of which invocations
return errors - the invocation trace depends only on which rids are
registered; a failing handler is reported to the log sink; and the pump
processes the remaining messages of its source regardless of what
dispatch did for the current one. -/
theorem c9_dispatch_isolation (st : RegState) (e : EventData)
    (plugins : List PluginRid) (rid : PluginRid) (bp : Bool × PluginModel)
    (msg : String) (owner : PluginRid)
    (provider : EventData → Except String Nat) (m : RecvMessage)
    (rest : List RecvMessage) :
    ((dispatchLoop st e plugins).2.map Prod.fst =
      plugins.filter (fun r => (alGet st.ridMap r).isSome)) ∧
    (rid ∈ plugins → alGet st.ridMap rid = some bp →
      bp.2.handleEvent e = Except.error msg →
      LogEntry.handleErr rid msg ∈ (dispatchLoop st e plugins).1) ∧
    (pumpRun owner st provider (m :: rest) =
      handleMsg owner st provider m :: pumpRun owner st provider rest) := by
  refine ⟨?_, ?_, rfl⟩
  · induction plugins with
    | nil => rfl
    | cons a rest' ih =>
      cases hga : alGet st.ridMap a with
      | none => simp [dispatchLoop, hga, ih]
      | some bpa =>
        cases hha : bpa.2.handleEvent e with
        | error m2 => simp [dispatchLoop, hga, hha, ih]
        | ok s2 => simp [dispatchLoop, hga, hha, ih]
  · intro hmem hget herr
    induction plugins with
    | nil => cases hmem
    | cons a rest' ih =>
      rcases List.mem_cons.mp hmem with hEq | hTail
      · subst hEq
        simp [dispatchLoop, hget, herr]
      · have htail := ih hTail
        cases hga : alGet st.ridMap a with
        | none =>
          simp only [dispatchLoop, hga]
          exact List.mem_cons_of_mem _ htail
        | some bpa =>
          cases hha : bpa.2.handleEvent e with
          | error m2 =>
            simp only [dispatchLoop, hga, hha]
            exact List.mem_cons_of_mem _ htail
          | ok s2 =>
            simp only [dispatchLoop, hga, hha]
            exact htail

/-- Plugin whose handler fails, for the isolation witness. -/
def c9PluginBad : PluginModel :=
  ⟨Except.ok (), [], fun _ => Except.error "boom", fun _ _ => Except.ok 0⟩

/-- Plugin whose handler succeeds, for the isolation witness. -/
def c9PluginGood : PluginModel :=
  ⟨Except.ok (), [], fun _ => Except.ok EventState.intercept,
    fun _ _ => Except.ok 0⟩

/-- Registry holding the failing plugin at rid 1 and the succeeding one
at rid 2. -/
def c9State : RegState :=
  { RegState.empty with
    ridMap := [(1, (false, c9PluginBad)), (2, (false, c9PluginGood))] }

/-- Witness for c9_dispatch_isolation: rid 1 fails first yet both rids
appear in the invocation trace, and the failure shows up in the log. -/
theorem c9_dispatch_isolation_witness :
    (1 : PluginRid) ∈ [1, 2] ∧
    alGet c9State.ridMap 1 = some (false, c9PluginBad) ∧
    (false, c9PluginBad).2.handleEvent ⟨"A", "x"⟩ = Except.error "boom" ∧
    LogEntry.handleErr 1 "boom" ∈ (dispatchLoop c9State ⟨"A", "x"⟩ [1, 2]).1 ∧
    (dispatchLoop c9State ⟨"A", "x"⟩ [1, 2]).2.map Prod.fst =
      [1, 2].filter (fun r => (alGet c9State.ridMap r).isSome) := by
  have h := c9_dispatch_isolation c9State ⟨"A", "x"⟩ [1, 2] 1
    (false, c9PluginBad) "boom" 0 (fun _ => Except.ok 0)
    (RecvMessage.close "") []
  exact ⟨by decide, rfl, rfl, h.2.1 (by decide) rfl rfl, h.1⟩

end Carolina
